import Mathlib

set_option maxRecDepth 8000

/-!
Shallow embedding of the uefi-ntfs chain loader (src/boot.c) and proofs about
its target-selection, driver-lifecycle, retry and chain-load logic.
-/

namespace UefiNtfs

/-- EFI status codes used by the program. Every constructor other than
Success denotes an error status. -/
inductive Status where
  | Success
  | NotFound
  | AccessDenied
  | SecurityViolation
  | DeviceError
  | LoadError
  | Unsupported
  | NoMapping
  | OtherError (code : Nat)
deriving DecidableEq, Repr

/-- The EFI_ERROR test: true on every non-success status (none of the codes
the program manipulates is a warning code). -/
def EFI_ERROR : Status → Bool
  | Status.Success => false
  | _ => true

/-- A device-path node, as raw bytes. -/
abbrev DeviceNode := List Nat

/-- A device path: an ordered sequence of nodes. -/
abbrev DevicePath := List DeviceNode

/-- Modelled from the spec: CompareDevicePaths (declared in boot.h, its
implementation is not part of src/) performs a byte-for-byte structural
comparison and returns 0 exactly on equality. -/
def CompareDevicePaths (a b : DevicePath) : Int :=
  if a = b then 0 else 1

/-- Modelled from the spec: GetParentDevice (not part of src/) derives the
parent device path by truncating the last device-path node. -/
def GetParentDevice (p : DevicePath) : DevicePath := p.dropLast

/-- The OEM-identifier magic table of efi_main (boot.c lines 241-243):
row 0 holds the bytes of "NTFS    ", row 1 the bytes of "EXFAT   ". -/
def FsMagic : List (List Nat) :=
  [[0x4E, 0x54, 0x46, 0x53, 0x20, 0x20, 0x20, 0x20],
   [0x45, 0x58, 0x46, 0x41, 0x54, 0x20, 0x20, 0x20]]

/-- The 8-byte window at byte offset 3 of a block (boot.c line 342 compares
Buffer[3..10] against a magic row). -/
def fsWindow (buf : List Nat) : List Nat := (buf.drop 3).take 8

/-- The scan loop of boot.c lines 341-342: the index of the first magic row
equal to the window at offset 3, or the table length (2) when none matches. -/
def FsTypeScan (buf : List Nat) : Nat :=
  FsMagic.findIdx (fun magic => fsWindow buf == magic)

/-- Filesystem classification outcomes, mirroring the FsName table of
boot.c line 244 plus the no-match case. -/
inductive FsClass where
  | NTFS
  | exFAT
  | Unknown
deriving DecidableEq, Repr

/-- The FsName table (boot.c line 244) as classification labels. -/
def FsName : List FsClass := [FsClass.NTFS, FsClass.exFAT]

/-- Classification of a candidate from the outcome of reading its first
block: a failed read (modelled as none, which also covers a failed BlockIo
open or a failed buffer allocation, boot.c lines 333-345) gives Unknown;
otherwise the FsName entry selected by the magic scan, or Unknown when the
scan reached the end of the table. -/
def classify (block : Option (List Nat)) : FsClass :=
  match block with
  | none => FsClass.Unknown
  | some buf => FsName.getD (FsTypeScan buf) FsClass.Unknown

/-- A candidate handle as the selection loop of efi_main sees it: its device
path and the outcome of reading its first block (none when the BlockIo open,
the buffer allocation or the read fails). -/
structure Candidate where
  path : DevicePath
  firstBlock : Option (List Nat)
deriving DecidableEq, Repr

/-- The run context of the selection loop: the boot-partition device path and
whether this is a debug build (the _DEBUG build flag of boot.c line 326). -/
structure BootEnv where
  bootPartitionPath : DevicePath
  debug : Bool
deriving DecidableEq, Repr

/-- boot.c line 298: the boot disk is the parent device of the boot
partition. -/
def bootDiskPath (e : BootEnv) : DevicePath := GetParentDevice e.bootPartitionPath

/-- boot.c lines 317-319: skip the partition the program booted from. -/
def skipBootPartition (e : BootEnv) (c : Candidate) : Bool :=
  decide (CompareDevicePaths c.path e.bootPartitionPath = 0)

/-- boot.c lines 321-322: the SameDevice flag. -/
def sameDevice (e : BootEnv) (c : Candidate) : Bool :=
  decide (CompareDevicePaths (bootDiskPath e) (GetParentDevice c.path) = 0)

/-- boot.c lines 326-331: the same-device skip, compiled in only for release
builds (skipped entirely when _DEBUG is defined). -/
def skipDifferentDevice (e : BootEnv) (c : Candidate) : Bool :=
  !e.debug && !sameDevice e c

/-- boot.c lines 340-347: the read succeeded and the magic scan stopped
before the end of the FsName table. -/
def candidateMatches (c : Candidate) : Bool :=
  match c.firstBlock with
  | none => false
  | some buf => decide (FsTypeScan buf < FsName.length)

/-- The selection loop of boot.c lines 314-348 over the enumerated
candidates, in enumeration order. -/
def findTarget (e : BootEnv) : List Candidate → Option Candidate
  | [] => none
  | c :: rest =>
    if skipBootPartition e c then findTarget e rest
    else if skipDifferentDevice e c then findTarget e rest
    else if candidateMatches c then some c
    else findTarget e rest

/-- boot.c lines 350-354: when the loop falls off the end of the handle list
the run status becomes EFI_NOT_FOUND; otherwise the found candidate is the
target. -/
def selectTarget (e : BootEnv) (cs : List Candidate) : Except Status Candidate :=
  match findTarget e cs with
  | some c => Except.ok c
  | none => Except.error Status.NotFound

/-- Eligibility as the spec selection policy words it: not the boot
partition, on the boot disk (release builds), and classified as NTFS or
exFAT. -/
def eligibleTarget (e : BootEnv) (c : Candidate) : Bool :=
  !skipBootPartition e c && !skipDifferentDevice e c &&
    decide (classify c.firstBlock ≠ FsClass.Unknown)

/-- A DiskIo opener as UnloadDriver sees it: whether a driver-binding
protocol is resolvable on its agent handle (boot.c lines 170-173), and
whether UnloadImage on the binding image handle succeeds (line 178). -/
structure OpenerRecord where
  hasDriverBinding : Bool
  unloadSucceeds : Bool
deriving DecidableEq, Repr

/-- The loop of UnloadDriver (boot.c lines 168-186): scan the openers in
order, skip those without a resolvable driver binding, return EFI_SUCCESS on
the first successful unload, otherwise EFI_NOT_FOUND. -/
def unloadDriverScan : List OpenerRecord → Status
  | [] => Status.NotFound
  | o :: rest =>
    if !o.hasDriverBinding then unloadDriverScan rest
    else if !o.unloadSucceeds then unloadDriverScan rest
    else Status.Success

/-- UnloadDriver (boot.c lines 151-187): a failed OpenProtocolInformation
(none) gives EFI_NOT_FOUND, otherwise the scan over the openers. -/
def UnloadDriver (openers : Option (List OpenerRecord)) : Status :=
  match openers with
  | none => Status.NotFound
  | some os => unloadDriverScan os

/-- boot.c lines 375-379: when the filesystem test returned EFI_SUCCESS, a
successful unload turns the flow status into EFI_UNSUPPORTED. -/
def statusAfterUnload (fsTest : Status) (openers : Option (List OpenerRecord)) : Status :=
  if fsTest = Status.Success ∧ UnloadDriver openers = Status.Success then Status.Unsupported
  else fsTest

/-- boot.c line 382: the companion-driver load/start step runs exactly when
the flow status is EFI_UNSUPPORTED. -/
def driverStepRuns (fsTest : Status) (openers : Option (List OpenerRecord)) : Bool :=
  decide (statusAfterUnload fsTest openers = Status.Unsupported)

/-- The three secure-boot states as efi_main prints them (boot.c lines
278-284): 0 is Disabled, a positive value is Enabled, a negative value is
Setup. -/
inductive SecureBootMode where
  | Disabled
  | Enabled
  | Setup
deriving DecidableEq, Repr

/-- The interpretation of the SecureBootStatus value, from the display logic
of boot.c lines 278-284. -/
def secureBootMode (s : Int) : SecureBootMode :=
  if s = 0 then SecureBootMode.Disabled
  else if s > 0 then SecureBootMode.Enabled
  else SecureBootMode.Setup

/-- boot.c lines 399-406 and 505-510: a failed LoadImage status is remapped
to EFI_SECURITY_VIOLATION exactly when it is EFI_ACCESS_DENIED and
SecureBootStatus >= 1. -/
def remapLoadStatus (s : Status) (secureBootStatus : Int) : Status :=
  if s = Status.AccessDenied ∧ secureBootStatus ≥ 1 then Status.SecurityViolation
  else s

/-- The volume-open loop of boot.c lines 449-459, parameterised by the
status each open attempt returns (attempt k is the open at Try = k).
First argument: retries still allowed (NUM_RETRIES minus the current Try, so
the exhaustion test Try >= NUM_RETRIES is the zero case). Second argument:
the current attempt index. Result: final status, the index of the last
attempt performed plus one (so, started at 0, the total number of attempts),
and the total stall time inserted between attempts (a fixed delay per gap).
At zero retries left the loop returns the status of the current attempt
whether it succeeded or not, exactly as the source does. -/
def retryAux (attempt : Nat → Status) (delay : Nat) : Nat → Nat → Status × Nat × Nat
  | 0, t => (attempt t, t + 1, 0)
  | r + 1, t =>
    if EFI_ERROR (attempt t) = false then (attempt t, t + 1, 0)
    else
      let res := retryAux attempt delay r (t + 1)
      (res.1, res.2.1, res.2.2 + delay)

/-- The retry controller: NUM_RETRIES further attempts after the first one,
a fixed stall of delay between consecutive attempts. -/
def openWithRetry (attempt : Nat → Status) (delay numRetries : Nat) : Status × Nat × Nat :=
  retryAux attempt delay numRetries 0

/-- The marker searched for in the loaded image (boot.c line 260, first
letter restored at line 513): the bytes of the C string bootmgr.dll, the
terminating NUL included, because CompareMem is called with sizeof, which is
12. -/
def BootMgrName : List Nat :=
  [0x62, 0x6F, 0x6F, 0x74, 0x6D, 0x67, 0x72, 0x2E, 0x64, 0x6C, 0x6C, 0x00]

/-- The 12-byte window of the loaded image at offset i. -/
def imageWindow (img : List Nat) (i : Nat) : List Nat :=
  (img.drop i).take BootMgrName.length

/-- The scan of boot.c lines 518-525: offsets from 0x40, strictly below
ImageSize minus the marker size; the flag is set when some examined window
equals the marker. -/
def scanForBootMgr (img : List Nat) : Bool :=
  (List.range (img.length - BootMgrName.length)).any
    (fun i => decide (0x40 ≤ i) && (imageWindow img i == BootMgrName))

/-- boot.c lines 513-518: the WindowsBootMgr flag stays false when the
loaded-image protocol cannot be opened for inspection (none). -/
def windowsBootMgrDetected (inspect : Option (List Nat)) : Bool :=
  match inspect with
  | none => false
  | some img => scanForBootMgr img

/-- What the failure branch after StartImage reports. -/
inductive StartReportKind where
  | WinBootMgrSecurityFailure
  | StartFailure
  | NoFailure
deriving DecidableEq, Repr

/-- boot.c lines 527-540 followed by the return at line 556: the report
chosen for the StartImage status, paired with the status the entry point
returns to the firmware. -/
def startStageResult (inspect : Option (List Nat)) (startStatus : Status) :
    StartReportKind × Status :=
  if EFI_ERROR startStatus = true then
    if startStatus = Status.NoMapping ∧ windowsBootMgrDetected inspect = true then
      (StartReportKind.WinBootMgrSecurityFailure, startStatus)
    else (StartReportKind.StartFailure, startStatus)
  else (StartReportKind.NoFailure, startStatus)

/-- A concrete two-node device path, used by concrete instantiations. -/
def pathA : DevicePath := [[1], [2]]

/-- A second concrete device path sharing the parent of pathA. -/
def pathB : DevicePath := [[1], [3]]

/-- A concrete release-build context booted from pathA. -/
def envR : BootEnv := { bootPartitionPath := pathA, debug := false }

/-- A concrete first block whose OEM identifier is the NTFS magic. -/
def ntfsBlock : List Nat :=
  [0xEB, 0x52, 0x90, 0x4E, 0x54, 0x46, 0x53, 0x20, 0x20, 0x20, 0x20, 0x00]

/-- A concrete candidate on the boot disk holding an NTFS first block. -/
def candNtfs : Candidate := { path := pathB, firstBlock := some ntfsBlock }

/-- A concrete candidate whose first-block read failed. -/
def candBad : Candidate := { path := pathB, firstBlock := none }

/-! Helper lemmas shared by the claim theorems. -/

lemma compareDevicePaths_eq_zero (a b : DevicePath) :
    CompareDevicePaths a b = 0 ↔ a = b := by
  unfold CompareDevicePaths
  split <;> simp_all

lemma candidateMatches_eq (c : Candidate) :
    candidateMatches c = decide (classify c.firstBlock ≠ FsClass.Unknown) := by
  obtain ⟨p, b⟩ := c
  cases b with
  | none => rfl
  | some buf =>
    show decide (FsTypeScan buf < FsName.length) =
      decide (FsName.getD (FsTypeScan buf) FsClass.Unknown ≠ FsClass.Unknown)
    generalize FsTypeScan buf = n
    rcases n with _ | _ | m
    · rfl
    · rfl
    · rfl

lemma eligible_true_iff (e : BootEnv) (c : Candidate) :
    eligibleTarget e c = true ↔
      skipBootPartition e c = false ∧ skipDifferentDevice e c = false ∧
        candidateMatches c = true := by
  unfold eligibleTarget
  rw [candidateMatches_eq]
  simp [Bool.and_eq_true, Bool.not_eq_true', and_assoc]

lemma findTarget_cons (e : BootEnv) (c : Candidate) (rest : List Candidate) :
    findTarget e (c :: rest) =
      if eligibleTarget e c then some c else findTarget e rest := by
  show (if skipBootPartition e c then findTarget e rest
    else if skipDifferentDevice e c then findTarget e rest
    else if candidateMatches c then some c
    else findTarget e rest) = _
  by_cases h1 : skipBootPartition e c = true
  · have he : eligibleTarget e c = false := by
      rw [← Bool.not_eq_true, eligible_true_iff]
      simp [h1]
    simp [h1, he]
  · by_cases h2 : skipDifferentDevice e c = true
    · have he : eligibleTarget e c = false := by
        rw [← Bool.not_eq_true, eligible_true_iff]
        simp [h2]
      simp [h1, h2, he]
    · by_cases h3 : candidateMatches c = true
      · have he : eligibleTarget e c = true := by
          rw [eligible_true_iff]
          simp_all
        simp [h1, h2, h3, he]
      · have he : eligibleTarget e c = false := by
          rw [← Bool.not_eq_true, eligible_true_iff]
          simp [h3]
        simp [h1, h2, h3, he]

lemma findTarget_eq_findFirst (e : BootEnv) (cs : List Candidate) :
    findTarget e cs = List.find? (eligibleTarget e) cs := by
  induction cs with
  | nil => rfl
  | cons c rest ih =>
    rw [findTarget_cons]
    by_cases h : eligibleTarget e c = true
    · rw [if_pos h, List.find?_cons_of_pos _ h]
    · rw [if_neg (by simp_all), List.find?_cons_of_neg _ (by simp_all), ih]

lemma selectTarget_ok_iff (e : BootEnv) (cs : List Candidate) (t : Candidate) :
    selectTarget e cs = Except.ok t ↔ findTarget e cs = some t := by
  unfold selectTarget
  cases h : findTarget e cs <;> simp

lemma selectTarget_err_iff (e : BootEnv) (cs : List Candidate) :
    selectTarget e cs = Except.error Status.NotFound ↔ findTarget e cs = none := by
  unfold selectTarget
  cases h : findTarget e cs <;> simp

lemma selected_eligible (e : BootEnv) (cs : List Candidate) (t : Candidate)
    (h : selectTarget e cs = Except.ok t) : eligibleTarget e t = true := by
  rw [selectTarget_ok_iff, findTarget_eq_findFirst] at h
  exact List.find?_some h

lemma retryAux_count_ge (a : Nat → Status) (d : Nat) :
    ∀ r t, t + 1 ≤ (retryAux a d r t).2.1 := by
  intro r
  induction r with
  | zero => intro t; simp [retryAux]
  | succ r ih =>
    intro t
    by_cases h : EFI_ERROR (a t) = false
    · simp [retryAux, h]
    · have := ih (t + 1)
      simp [retryAux, h]
      omega

lemma retryAux_count_le (a : Nat → Status) (d : Nat) :
    ∀ r t, (retryAux a d r t).2.1 ≤ t + r + 1 := by
  intro r
  induction r with
  | zero => intro t; simp [retryAux]
  | succ r ih =>
    intro t
    by_cases h : EFI_ERROR (a t) = false
    · simp [retryAux, h]
    · have := ih (t + 1)
      simp [retryAux, h]
      omega

lemma retryAux_stall (a : Nat → Status) (d : Nat) :
    ∀ r t, (retryAux a d r t).2.2 = ((retryAux a d r t).2.1 - (t + 1)) * d := by
  intro r
  induction r with
  | zero => intro t; simp [retryAux]
  | succ r ih =>
    intro t
    by_cases h : EFI_ERROR (a t) = false
    · simp [retryAux, h]
    · have h1 := ih (t + 1)
      have h2 := retryAux_count_ge a d r (t + 1)
      have h3 : (retryAux a d r (t + 1)).2.1 - (t + 1) =
          ((retryAux a d r (t + 1)).2.1 - (t + 1 + 1)) + 1 := by omega
      simp only [retryAux, h, if_false, ite_false, if_neg]
      calc (retryAux a d r (t + 1)).2.2 + d
          = ((retryAux a d r (t + 1)).2.1 - (t + 1 + 1)) * d + d := by rw [h1]
        _ = (((retryAux a d r (t + 1)).2.1 - (t + 1 + 1)) + 1) * d := by
            rw [add_one_mul]
        _ = ((retryAux a d r (t + 1)).2.1 - (t + 1)) * d := by rw [← h3]

lemma retryAux_first_success (a : Nat → Status) (d : Nat) :
    ∀ r t k, t ≤ k → k ≤ t + r →
      (∀ j, t ≤ j → j < k → EFI_ERROR (a j) = true) →
      EFI_ERROR (a k) = false →
      retryAux a d r t = (a k, k + 1, (k - t) * d) := by
  intro r
  induction r with
  | zero =>
    intro t k h1 h2 hfail hk
    have hkt : k = t := by omega
    subst hkt
    simp [retryAux]
  | succ r ih =>
    intro t k h1 h2 hfail hk
    by_cases ht : EFI_ERROR (a t) = false
    · have hkt : k = t := by
        by_contra hne
        have hlt : t < k := by omega
        have := hfail t (le_refl t) hlt
        rw [this] at ht
        exact Bool.noConfusion ht
      subst hkt
      simp [retryAux, ht]
    · have hlt : t < k := by
        rcases Nat.eq_or_lt_of_le h1 with he | hl
        · exfalso; rw [← he] at hk; exact ht hk
        · exact hl
      have hrec := ih (t + 1) k (by omega) (by omega)
        (fun j hj1 hj2 => hfail j (by omega) hj2) hk
      have hsub : k - (t + 1) + 1 = k - t := by omega
      simp only [retryAux, ht, if_false, ite_false, if_neg]
      rw [hrec]
      show (a k, k + 1, (k - (t + 1)) * d + d) = (a k, k + 1, (k - t) * d)
      rw [← hsub, add_one_mul]

lemma retryAux_all_fail (a : Nat → Status) (d : Nat) :
    ∀ r t, (∀ j, t ≤ j → j ≤ t + r → EFI_ERROR (a j) = true) →
      retryAux a d r t = (a (t + r), t + r + 1, r * d) := by
  intro r
  induction r with
  | zero => intro t h; simp [retryAux]
  | succ r ih =>
    intro t h
    have ht : EFI_ERROR (a t) = true := h t (le_refl t) (by omega)
    have ht' : ¬ (EFI_ERROR (a t) = false) := by rw [ht]; simp
    have hrec := ih (t + 1) (fun j hj1 hj2 => h j (by omega) (by omega))
    have he1 : t + 1 + r = t + (r + 1) := by omega
    simp only [retryAux, ht', if_false, ite_false, if_neg]
    rw [hrec]
    show (a (t + 1 + r), t + 1 + r + 1, r * d + d) =
      (a (t + (r + 1)), t + (r + 1) + 1, (r + 1) * d)
    rw [he1, add_one_mul]

/-! Claim theorems. -/

/-- C1: for every enumeration of disk handles, the selected target is the
first candidate in enumeration order, after skipping the boot partition and,
in release builds, partitions not on the boot disk, whose first block
classifies as NTFS or exFAT; when no candidate classifies as NTFS or exFAT
the run fails with NotFound and no target is selected. -/
theorem C1_first_eligible_candidate (e : BootEnv) (cs : List Candidate) :
    findTarget e cs = List.find? (eligibleTarget e) cs ∧
    (∀ t, selectTarget e cs = Except.ok t →
      List.find? (eligibleTarget e) cs = some t) ∧
    ((∀ c, c ∈ cs → classify c.firstBlock = FsClass.Unknown) →
      selectTarget e cs = Except.error Status.NotFound) := by
  refine ⟨findTarget_eq_findFirst e cs, ?_, ?_⟩
  · intro t h
    rw [← findTarget_eq_findFirst, ← selectTarget_ok_iff]
    exact h
  · intro hall
    rw [selectTarget_err_iff, findTarget_eq_findFirst]
    rw [List.find?_eq_none]
    intro c hc
    have : eligibleTarget e c = false := by
      simp [eligibleTarget, hall c hc]
    simp [this]

/-- C1 witness: with one candidate whose first-block read failed, the run
fails with NotFound. -/
theorem C1_witness :
    selectTarget envR [candBad] = Except.error Status.NotFound :=
  (C1_first_eligible_candidate envR [candBad]).2.2 (by decide)

/-- C2: signature classification is a pure function of the 8-byte window at
byte offset 3 of the first block: the window equal to the bytes of
"NTFS    " gives NTFS, equal to the bytes of "EXFAT   " gives exFAT, any
other window gives Unknown; a failed block read gives Unknown, and such a
candidate is skipped while enumeration continues. -/
theorem C2_classification_pure :
    (∀ b1 b2, fsWindow b1 = fsWindow b2 → classify (some b1) = classify (some b2)) ∧
    (∀ b, fsWindow b = [0x4E, 0x54, 0x46, 0x53, 0x20, 0x20, 0x20, 0x20] →
      classify (some b) = FsClass.NTFS) ∧
    (∀ b, fsWindow b = [0x45, 0x58, 0x46, 0x41, 0x54, 0x20, 0x20, 0x20] →
      classify (some b) = FsClass.exFAT) ∧
    (∀ b, fsWindow b ≠ [0x4E, 0x54, 0x46, 0x53, 0x20, 0x20, 0x20, 0x20] →
      fsWindow b ≠ [0x45, 0x58, 0x46, 0x41, 0x54, 0x20, 0x20, 0x20] →
      classify (some b) = FsClass.Unknown) ∧
    (classify none = FsClass.Unknown) ∧
    (∀ e c rest, classify c.firstBlock = FsClass.Unknown →
      findTarget e (c :: rest) = findTarget e rest) := by
  refine ⟨?_, ?_, ?_, ?_, rfl, ?_⟩
  · intro b1 b2 h
    simp only [classify, FsTypeScan, h]
  · intro b h
    simp only [classify, FsTypeScan, h]
    rfl
  · intro b h
    simp only [classify, FsTypeScan, h]
    rfl
  · intro b h1 h2
    have e1 : (fsWindow b == [0x4E, 0x54, 0x46, 0x53, 0x20, 0x20, 0x20, 0x20]) = false := by
      simp [h1]
    have e2 : (fsWindow b == [0x45, 0x58, 0x46, 0x41, 0x54, 0x20, 0x20, 0x20]) = false := by
      simp [h2]
    simp only [classify, FsTypeScan, FsMagic, List.findIdx_cons, e1, e2]
    rfl
  · intro e c rest h
    have hm : eligibleTarget e c = false := by
      simp [eligibleTarget, h]
    rw [findTarget_cons, hm]
    simp

/-- C2 witness: a block whose window at offset 3 holds the NTFS magic
classifies as NTFS. -/
theorem C2_witness : classify (some ntfsBlock) = FsClass.NTFS :=
  C2_classification_pure.2.1 ntfsBlock (by decide)

/-- C3: a candidate whose device path structurally equals the boot-partition
path is excluded, so the selected target never is the boot partition. -/
theorem C3_boot_partition_excluded (e : BootEnv) (cs : List Candidate) (t : Candidate) :
    selectTarget e cs = Except.ok t →
      CompareDevicePaths t.path e.bootPartitionPath ≠ 0 ∧
      t.path ≠ e.bootPartitionPath := by
  intro h
  have hel := selected_eligible e cs t h
  rw [eligible_true_iff] at hel
  obtain ⟨h1, -, -⟩ := hel
  have hne : CompareDevicePaths t.path e.bootPartitionPath ≠ 0 := by
    intro hc
    rw [skipBootPartition, hc] at h1
    simp at h1
  refine ⟨hne, ?_⟩
  intro hp
  exact hne ((compareDevicePaths_eq_zero _ _).mpr hp)

/-- C3 witness: a concrete selection on the release context picks the
non-boot NTFS candidate, whose path differs from the boot partition. -/
theorem C3_witness :
    CompareDevicePaths candNtfs.path envR.bootPartitionPath ≠ 0 ∧
    candNtfs.path ≠ envR.bootPartitionPath :=
  C3_boot_partition_excluded envR [candNtfs] candNtfs (by rfl)

/-- C4 counterexample: with secure boot in Setup mode (a negative status
value, as efi_main itself prints it) an access-denied load failure is not
remapped, contradicting the claim that the remap happens for Enabled or
Setup. -/
theorem C4_counterexample :
    secureBootMode (-1) = SecureBootMode.Setup ∧
    remapLoadStatus Status.AccessDenied (-1) = Status.AccessDenied ∧
    Status.AccessDenied ≠ Status.SecurityViolation := by
  refine ⟨rfl, ?_, by decide⟩
  unfold remapLoadStatus
  rw [if_neg]
  intro hc
  omega

/-- C4 (amended): the access-denied remap to SecurityViolation happens
exactly when secure boot is Enabled (SecureBootStatus at least 1); in Setup
or Disabled state, and for any other status, the status is unchanged. -/
theorem C4_remap_only_when_enabled (sb : Int) (s : Status) :
    (remapLoadStatus Status.AccessDenied sb = Status.SecurityViolation ↔
      secureBootMode sb = SecureBootMode.Enabled) ∧
    (secureBootMode sb ≠ SecureBootMode.Enabled → remapLoadStatus s sb = s) ∧
    (s ≠ Status.AccessDenied → remapLoadStatus s sb = s) := by
  have hmode : secureBootMode sb = SecureBootMode.Enabled ↔ 1 ≤ sb := by
    unfold secureBootMode
    by_cases h0 : sb = 0
    · rw [if_pos h0]
      constructor
      · intro hh; exact absurd hh (by decide)
      · intro hh; omega
    · rw [if_neg h0]
      by_cases hpos : sb > 0
      · rw [if_pos hpos]
        constructor
        · intro _; omega
        · intro _; rfl
      · rw [if_neg hpos]
        constructor
        · intro hh; exact absurd hh (by decide)
        · intro hh; omega
  refine ⟨?_, ?_, ?_⟩
  · rw [hmode]
    unfold remapLoadStatus
    by_cases hge : (1 : Int) ≤ sb
    · rw [if_pos ⟨rfl, hge⟩]
      simp [hge]
    · rw [if_neg (fun hc => hge hc.2)]
      constructor
      · intro hh; exact absurd hh (by decide)
      · intro hh; exact absurd hh hge
  · intro hmne
    unfold remapLoadStatus
    rw [if_neg]
    intro hc
    exact hmne (hmode.mpr hc.2)
  · intro hsne
    unfold remapLoadStatus
    rw [if_neg]
    intro hc
    exact hsne hc.1

/-- C4 witness: with secure boot Enabled (status 1), an access-denied load
failure is remapped to SecurityViolation. -/
theorem C4_witness :
    remapLoadStatus Status.AccessDenied 1 = Status.SecurityViolation :=
  (C4_remap_only_when_enabled 1 Status.Success).1.mpr (by decide)

/-- C5: when the target already exposes a filesystem protocol, the unload
scan walks the DiskIo openers in order, skipping openers without a
resolvable driver binding; the first successful unload makes the companion
driver step run, and when no opener can be unloaded the step is skipped. -/
theorem C5_unload_controls_driver_step :
    (∀ openers, driverStepRuns Status.Success openers = true ↔
      UnloadDriver openers = Status.Success) ∧
    (∀ openers, UnloadDriver openers ≠ Status.Success →
      driverStepRuns Status.Success openers = false) ∧
    (∀ o rest, o.hasDriverBinding = false →
      unloadDriverScan (o :: rest) = unloadDriverScan rest) ∧
    (∀ o rest, o.hasDriverBinding = true → o.unloadSucceeds = true →
      unloadDriverScan (o :: rest) = Status.Success) ∧
    (∀ o rest, o.hasDriverBinding = true → o.unloadSucceeds = false →
      unloadDriverScan (o :: rest) = unloadDriverScan rest) ∧
    (∀ os, unloadDriverScan os = Status.NotFound ↔
      ∀ o, o ∈ os → o.hasDriverBinding = false ∨ o.unloadSucceeds = false) := by
  have hscan : ∀ os, unloadDriverScan os = Status.NotFound ↔
      ∀ o, o ∈ os → o.hasDriverBinding = false ∨ o.unloadSucceeds = false := by
    intro os
    induction os with
    | nil => simp [unloadDriverScan]
    | cons o rest ih =>
      obtain ⟨hb, hu⟩ := o
      cases hb <;> cases hu <;>
        simp [unloadDriverScan, ih]
  refine ⟨?_, ?_, ?_, ?_, ?_, hscan⟩
  · intro openers
    unfold driverStepRuns statusAfterUnload
    by_cases h : UnloadDriver openers = Status.Success
    · simp [h]
    · simp [h]
  · intro openers h
    unfold driverStepRuns statusAfterUnload
    simp [h]
  · intro o rest h
    simp [unloadDriverScan, h]
  · intro o rest h1 h2
    simp [unloadDriverScan, h1, h2]
  · intro o rest h1 h2
    simp [unloadDriverScan, h1, h2]

/-- C5 witness: a single opener with a resolvable binding whose unload
succeeds makes the scan succeed, so the driver step runs. -/
theorem C5_witness :
    unloadDriverScan [{ hasDriverBinding := true, unloadSucceeds := true }] =
      Status.Success :=
  C5_unload_controls_driver_step.2.2.2.1
    { hasDriverBinding := true, unloadSucceeds := true } [] rfl rfl

/-- C6: the volume-open retry controller performs at most numRetries + 1
attempts, inserts a fixed delay between consecutive attempts (total stall is
the number of gaps times the delay), and returns the status of the first
successful attempt as soon as one succeeds, with no further attempts
afterwards. -/
theorem C6_retry_bounded (attempt : Nat → Status) (delay numRetries : Nat) :
    (openWithRetry attempt delay numRetries).2.1 ≤ numRetries + 1 ∧
    (openWithRetry attempt delay numRetries).2.2 =
      ((openWithRetry attempt delay numRetries).2.1 - 1) * delay ∧
    (∀ k, k ≤ numRetries → (∀ j, j < k → EFI_ERROR (attempt j) = true) →
      EFI_ERROR (attempt k) = false →
      openWithRetry attempt delay numRetries = (attempt k, k + 1, k * delay)) := by
  refine ⟨?_, ?_, ?_⟩
  · have := retryAux_count_le attempt delay numRetries 0
    unfold openWithRetry
    omega
  · have := retryAux_stall attempt delay numRetries 0
    unfold openWithRetry
    simpa using this
  · intro k hk hfail hsucc
    unfold openWithRetry
    have := retryAux_first_success attempt delay numRetries 0 k (Nat.zero_le k)
      (by omega) (fun j _ hj => hfail j hj) hsucc
    simpa using this

/-- C6 witness: an attempt that succeeds immediately gives exactly one
attempt and no stall. -/
theorem C6_witness :
    openWithRetry (fun _ => Status.Success) 7 3 = (Status.Success, 1, 0) :=
  (C6_retry_bounded (fun _ => Status.Success) 7 3).2.2 0 (by omega)
    (fun j hj => absurd hj (Nat.not_lt_zero j)) rfl

/-- C7 counterexample: with every attempt failing with EFI_UNSUPPORTED and
one retry allowed before each of two extra attempts (numRetries 2, delay 1),
the exhausted loop hands back EFI_UNSUPPORTED, not NotFound, refuting the
claim that exhaustion fails with NotFound. -/
theorem C7_counterexample :
    openWithRetry (fun _ => Status.Unsupported) 1 2 = (Status.Unsupported, 3, 2) ∧
    Status.Unsupported ≠ Status.NotFound := by decide

/-- C7 (amended): when every attempt fails, the loop performs
numRetries + 1 attempts and the run fails with the status of the last failed
open attempt, an error status that need not be NotFound. -/
theorem C7_exhaustion_returns_last_error (attempt : Nat → Status)
    (delay numRetries : Nat) :
    (∀ k, k ≤ numRetries → EFI_ERROR (attempt k) = true) →
    openWithRetry attempt delay numRetries =
      (attempt numRetries, numRetries + 1, numRetries * delay) ∧
    EFI_ERROR (openWithRetry attempt delay numRetries).1 = true := by
  intro h
  have hall := retryAux_all_fail attempt delay numRetries 0
    (fun j _ hj => h j (by omega))
  have h0 : openWithRetry attempt delay numRetries =
      (attempt numRetries, numRetries + 1, numRetries * delay) := by
    unfold openWithRetry
    rw [hall]
    simp
  rw [h0]
  exact ⟨rfl, h numRetries (le_refl numRetries)⟩

/-- C7 witness: a loop whose every attempt fails with EFI_UNSUPPORTED
exhausts its two attempts and returns EFI_UNSUPPORTED. -/
theorem C7_witness :
    openWithRetry (fun _ => Status.Unsupported) 5 1 =
      (Status.Unsupported, 2, 5) ∧
    EFI_ERROR (openWithRetry (fun _ => Status.Unsupported) 5 1).1 = true :=
  C7_exhaustion_returns_last_error (fun _ => Status.Unsupported) 5 1
    (fun _ _ => rfl)

/-- C8: in a release build the selected target always shares the boot disk
as parent device; in a debug build the same-device skip is never applied, so
only the boot-partition skip remains. -/
theorem C8_same_device_release_only :
    (∀ (e : BootEnv) (cs : List Candidate) (t : Candidate), e.debug = false →
      selectTarget e cs = Except.ok t →
      GetParentDevice t.path = bootDiskPath e) ∧
    (∀ (e : BootEnv) (c : Candidate), e.debug = true →
      skipDifferentDevice e c = false) := by
  constructor
  · intro e cs t hdbg h
    have hel := selected_eligible e cs t h
    rw [eligible_true_iff] at hel
    obtain ⟨-, h2, -⟩ := hel
    rw [skipDifferentDevice, hdbg] at h2
    simp only [Bool.not_false, Bool.true_and, Bool.not_eq_false'] at h2
    rw [sameDevice] at h2
    have := of_decide_eq_true h2
    exact ((compareDevicePaths_eq_zero _ _).mp this).symm
  · intro e c hdbg
    rw [skipDifferentDevice, hdbg]
    rfl

/-- C8 witness: a concrete release-build selection picks a candidate whose
parent path is the boot disk path. -/
theorem C8_witness : GetParentDevice candNtfs.path = bootDiskPath envR :=
  C8_same_device_release_only.1 envR [candNtfs] candNtfs rfl (by rfl)

/-- A concrete loaded image whose marker sits at offset 0x40 and ends
exactly at the end of the image. -/
def imgBoundary : List Nat := List.replicate 0x40 0 ++ BootMgrName

/-- C9 counterexample: imgBoundary holds the marker at offset 0x40, an
offset at or above the minimum header size, and the start status is the
no-mapping status, yet the scan bound (strictly below ImageSize minus the
marker size) misses it and the generic start-failure report is chosen,
refuting the claim for markers ending at the end of the image. -/
theorem C9_counterexample :
    imageWindow imgBoundary 0x40 = BootMgrName ∧
    0x40 + BootMgrName.length = imgBoundary.length ∧
    startStageResult (some imgBoundary) Status.NoMapping =
      (StartReportKind.StartFailure, Status.NoMapping) := by decide

/-- C9 (amended): the marker is detected exactly when it occurs at an offset
i with 0x40 <= i and i plus the marker size strictly below the image size
(one byte short of the claimed range); a detected marker with the no-mapping
start status selects the descriptive report, while an unrecognized image or
any other failing status selects the generic start-failure report. -/
theorem C9_bootmgr_report (img : List Nat) (s : Status) :
    (scanForBootMgr img = true ↔
      ∃ i, 0x40 ≤ i ∧ i + BootMgrName.length < img.length ∧
        imageWindow img i = BootMgrName) ∧
    (scanForBootMgr img = true →
      startStageResult (some img) Status.NoMapping =
        (StartReportKind.WinBootMgrSecurityFailure, Status.NoMapping)) ∧
    (scanForBootMgr img = false → EFI_ERROR s = true →
      startStageResult (some img) s = (StartReportKind.StartFailure, s)) ∧
    (s ≠ Status.NoMapping → EFI_ERROR s = true →
      startStageResult (some img) s = (StartReportKind.StartFailure, s)) ∧
    (EFI_ERROR s = true →
      startStageResult none s = (StartReportKind.StartFailure, s)) := by
  refine ⟨?_, ?_, ?_, ?_, ?_⟩
  · rw [scanForBootMgr, List.any_eq_true]
    constructor
    · rintro ⟨i, hi, hp⟩
      rw [List.mem_range] at hi
      rw [Bool.and_eq_true, decide_eq_true_eq, beq_iff_eq] at hp
      exact ⟨i, hp.1, by omega, hp.2⟩
    · rintro ⟨i, h40, hlen, hw⟩
      refine ⟨i, ?_, ?_⟩
      · rw [List.mem_range]
        omega
      · rw [Bool.and_eq_true, decide_eq_true_eq, beq_iff_eq]
        exact ⟨h40, hw⟩
  · intro hscan
    have hw : windowsBootMgrDetected (some img) = true := hscan
    simp [startStageResult, EFI_ERROR, hw]
  · intro hscan herr
    have hw : windowsBootMgrDetected (some img) = false := hscan
    simp [startStageResult, herr, hw]
  · intro hs herr
    simp [startStageResult, herr, hs]
  · intro herr
    simp [startStageResult, herr, windowsBootMgrDetected]

/-- A concrete loaded image whose marker sits strictly inside the scanned
range. -/
def imgInner : List Nat := List.replicate 0x40 0 ++ BootMgrName ++ [0, 0]

/-- C9 witness: an image holding the marker strictly inside the scanned
range, started with the no-mapping status, yields the descriptive report. -/
theorem C9_witness :
    startStageResult (some imgInner) Status.NoMapping =
      (StartReportKind.WinBootMgrSecurityFailure, Status.NoMapping) :=
  (C9_bootmgr_report imgInner Status.NoMapping).2.1 (by decide)

/-- A concrete loaded image for the C10 witness, marker strictly inside the
scanned range. -/
def imgC10 : List Nat := List.replicate 0x41 0 ++ BootMgrName ++ [0, 0]

/-- C10: the status the entry point returns after StartImage is exactly the
StartImage status, with no remapping; in particular, when the descriptive
Windows-bootmgr report is chosen the returned status is still the raw
no-mapping status. -/
theorem C10_start_status_not_remapped (inspect : Option (List Nat)) (s : Status) :
    (startStageResult inspect s).2 = s ∧
    ((startStageResult inspect s).1 = StartReportKind.WinBootMgrSecurityFailure →
      (startStageResult inspect s).2 = Status.NoMapping) := by
  unfold startStageResult
  split_ifs with h1 h2
  · exact ⟨rfl, fun _ => h2.1⟩
  · exact ⟨rfl, fun hc => absurd hc (by decide)⟩
  · exact ⟨rfl, fun hc => absurd hc (by decide)⟩

/-- C10 witness: a start failure with the no-mapping status on a recognized
image returns the raw no-mapping status to the firmware. -/
theorem C10_witness :
    (startStageResult (some imgC10) Status.NoMapping).2 = Status.NoMapping :=
  (C10_start_status_not_remapped (some imgC10) Status.NoMapping).2 (by decide)

end UefiNtfs
